import Mathlib

/-!
Verification of the result-envelope convention, configuration resolution and
chat-session behaviour of an Azure Communication Services sample application
(`samples/python/acs_sample.py` and `samples/python/test_email.py`).

The external cloud SDK is modelled as explicit collaborator functions
returning `Except String α`: `.error e` stands for a raised exception whose
`str(...)` rendering is `e`, and `.ok r` for a normal return.  Python
dictionaries built by the code are modelled as association lists in
insertion order, with values in an inductive `JValue` type.
-/

/-- Values stored in the dictionaries the sample builds and returns. -/
inductive JValue where
  | vNull : JValue
  | vBool : Bool → JValue
  | vNat : Nat → JValue
  | vStr : String → JValue
  | vList : List JValue → JValue
  | vObj : List (String × JValue) → JValue

/-- A Python dict as built by the sample: keys in insertion order. -/
abbrev Envelope := List (String × JValue)

/-- Dictionary key lookup (the envelopes never repeat a key). -/
def lookupKey (e : Envelope) (k : String) : Option JValue :=
  List.lookup k e

/-- `Option String` rendered as Python renders an optional value in a dict. -/
def optStrVal : Option String → JValue
  | none => JValue.vNull
  | some s => JValue.vStr s

/-- Python truthiness of an optional string: `None` and `""` are falsy. -/
def strTruthy : Option String → Bool
  | none => false
  | some s => !(s == "")

/-- Python truthiness of an optional list: `None` and `[]` are falsy. -/
def optListTruthy : Option (List String) → Bool
  | none => false
  | some l => !l.isEmpty

/-! ## Configuration (`ACSConfiguration`) -/

/-- The configuration fields set by `ACSConfiguration._load_configuration`. -/
structure ACSConfiguration where
  connection_string : Option String
  endpoint : Option String
deriving DecidableEq

/-- `ACSConfiguration._load_from_key_vault`: fetch two named secrets in
order; an exception at either fetch (or while building the client,
subsumed by a failing first fetch) is caught and only logged, keeping the
assignments already performed. -/
def ACSConfiguration.load_from_key_vault
    (store : String → Except String String)
    (c : ACSConfiguration) : ACSConfiguration :=
  match store "acs-connection-string" with
  | Except.error _ => c
  | Except.ok cs =>
    match store "acs-endpoint" with
    | Except.error _ => { c with connection_string := some cs }
    | Except.ok ep => { connection_string := some cs, endpoint := some ep }

/-- `ACSConfiguration._load_configuration`: read the two environment
variables; if the connection string is falsy and a Key Vault URL is
truthy, fall back to the Key Vault lookup. -/
def ACSConfiguration.load_configuration
    (env : String → Option String)
    (store : String → Except String String) : ACSConfiguration :=
  let c : ACSConfiguration :=
    { connection_string := env "ACS_CONNECTION_STRING"
      endpoint := env "ACS_ENDPOINT" }
  if strTruthy c.connection_string then c
  else if strTruthy (env "KEY_VAULT_URL") then
    ACSConfiguration.load_from_key_vault store c
  else c

/-! ## SMS service (`SMSService`) -/

/-- The fields the code reads off the SDK's SMS send result. -/
structure SmsSendResult where
  message_id : String
  to_number : String
  http_status_code : Nat
  successful : Bool

/-- The SMS collaborator: arguments as passed by `send_sms`
(`from_`, `to`, `message`, `enable_delivery_report`, `tag`). -/
abbrev SmsTransport :=
  String → String → String → Bool → Option String → Except String SmsSendResult

/-- `SMSService.send_sms`: call the client and wrap the outcome in the
uniform result envelope. -/
def SMSService.send_sms (transport : SmsTransport)
    (from_number to_number message : String)
    (enable_delivery_report : Bool) (tag : Option String) : Envelope :=
  match transport from_number to_number message enable_delivery_report tag with
  | Except.ok r =>
    [("success", JValue.vBool true),
     ("message_id", JValue.vStr r.message_id),
     ("to", JValue.vStr r.to_number),
     ("http_status_code", JValue.vNat r.http_status_code),
     ("successful", JValue.vBool r.successful)]
  | Except.error e =>
    [("success", JValue.vBool false),
     ("error", JValue.vStr e)]

/-- `SMSService.send_bulk_sms`: one `send_sms` per recipient, in order,
with the default `tag=None`. -/
def SMSService.send_bulk_sms (transport : SmsTransport)
    (from_number : String) (to_numbers : List String) (message : String)
    (enable_delivery_report : Bool) : List Envelope :=
  to_numbers.map fun to_number =>
    SMSService.send_sms transport from_number to_number message
      enable_delivery_report none

/-! ## Email service (`EmailService`) -/

/-- The fields the code reads off the completed email send poller. -/
structure EmailSendResult where
  id : String
  status : String

/-- The email collaborator: takes the message dict built by `send_email`
(`begin_send` followed by `poller.result()`). -/
abbrev EmailTransport := JValue → Except String EmailSendResult

/-- The message dict built inside `EmailService.send_email` (content
choice, recipients with optional cc/bcc, optional replyTo), in insertion
order. -/
def buildEmailMessage
    (sender_address recipient_address subject body : String)
    (is_html : Bool) (cc bcc : Option (List String))
    (reply_to : Option String) : JValue :=
  let content : List (String × JValue) :=
    if is_html then [("html", JValue.vStr body)]
    else [("plainText", JValue.vStr body)]
  let recipients : List (String × JValue) :=
    [("to", JValue.vList [JValue.vObj [("address", JValue.vStr recipient_address)]])]
  let recipients :=
    if optListTruthy cc then
      recipients ++
        [("cc", JValue.vList ((cc.getD []).map fun a =>
          JValue.vObj [("address", JValue.vStr a)]))]
    else recipients
  let recipients :=
    if optListTruthy bcc then
      recipients ++
        [("bcc", JValue.vList ((bcc.getD []).map fun a =>
          JValue.vObj [("address", JValue.vStr a)]))]
    else recipients
  let message : List (String × JValue) :=
    [("senderAddress", JValue.vStr sender_address),
     ("recipients", JValue.vObj recipients),
     ("content", JValue.vObj (("subject", JValue.vStr subject) :: content))]
  let message :=
    if strTruthy reply_to then
      message ++
        [("replyTo", JValue.vList [JValue.vObj
          [("address", JValue.vStr (reply_to.getD ""))]])]
    else message
  JValue.vObj message

/-- `EmailService.send_email`: build the message dict, start the send and
block on the poller, and wrap the outcome. -/
def EmailService.send_email (transport : EmailTransport)
    (sender_address recipient_address subject body : String)
    (is_html : Bool) (cc bcc : Option (List String))
    (reply_to : Option String) : Envelope :=
  match transport (buildEmailMessage sender_address recipient_address
      subject body is_html cc bcc reply_to) with
  | Except.ok r =>
    [("success", JValue.vBool true),
     ("message_id", JValue.vStr r.id),
     ("status", JValue.vStr r.status)]
  | Except.error e =>
    [("success", JValue.vBool false),
     ("error", JValue.vStr e)]

/-! ## Chat service (`ChatService`) -/

/-- The chat client handle built by `initialize_chat_client`
(`ChatClient(self.endpoint, credential)`). -/
structure ChatClientModel where
  endpoint : String
  token : String
deriving DecidableEq

/-- The mutable state of a `ChatService` instance: the endpoint fixed at
construction and the optional chat client handle (`None` in `__init__`). -/
structure ChatService where
  endpoint : String
  chat_client : Option ChatClientModel
deriving DecidableEq

/-- A chat participant as built by `create_chat_thread`
(`CommunicationUserIdentifier(user_id)` plus a display name). -/
structure ChatParticipantModel where
  identifier : String
  display_name : String

/-- The fields the code reads off the SDK's create-thread result. -/
structure ThreadInfo where
  id : String
  topic : String
  created_on : String

/-- A chat message as the code reads it from the SDK iterator: `id`,
`type`, `content.message` when `content` is truthy, the sender id when a
sender identifier is present, `created_on` when present. -/
structure ChatMessageModel where
  id : String
  type : String
  content : Option String
  sender_id : Option String
  created_on : Option String

/-- The chat/identity collaborators used by `ChatService`, plus the clock
read by `send_message` (`datetime.utcnow().isoformat()`).  An `.error`
models an exception from the SDK call (including a failing
`get_chat_thread_client`). -/
structure ChatTransport where
  create_user_and_token_call : Except String (String × String × String)
  create_chat_thread_call :
    String → List ChatParticipantModel → Except String ThreadInfo
  send_message_call : String → String → String → Except String String
  list_messages_call : String → Except String (List ChatMessageModel)
  utcnow : String

/-- `ChatService.__init__`: store the endpoint, no chat client yet. -/
def ChatService.init (endpoint : String) : ChatService :=
  { endpoint := endpoint, chat_client := none }

/-- `ChatService.create_user_and_token`: wrap the identity-client call. -/
def ChatService.create_user_and_token (t : ChatTransport)
    (_ : ChatService) : Envelope :=
  match t.create_user_and_token_call with
  | Except.ok r =>
    [("success", JValue.vBool true),
     ("user_id", JValue.vStr r.1),
     ("token", JValue.vStr r.2.1),
     ("expires_on", JValue.vStr r.2.2)]
  | Except.error e =>
    [("success", JValue.vBool false),
     ("error", JValue.vStr e)]

/-- `ChatService.initialize_chat_client`: build a credential from the
token and set `self.chat_client`. -/
def ChatService.initialize_chat_client (s : ChatService)
    (access_token : String) : ChatService :=
  { s with chat_client := some { endpoint := s.endpoint, token := access_token } }

/-- The fail-fast envelope returned by every chat thread/message operation
when `self.chat_client` is `None`. -/
def chatClientMissingEnv : Envelope :=
  [("success", JValue.vBool false),
   ("error", JValue.vStr "Chat client not initialized")]

/-- The participant list built inside `create_chat_thread`: one
`ChatParticipant` per user id, with display names `User-1`, `User-2`, ...
following `enumerate(participant_ids)`. -/
def buildParticipants (participant_ids : List String) :
    List ChatParticipantModel :=
  participant_ids.enum.map fun p =>
    { identifier := p.2, display_name := "User-" ++ toString (p.1 + 1) }

/-- `ChatService.create_chat_thread`: guard on the handle, build the
participant list, call the client, wrap the outcome. -/
def ChatService.create_chat_thread (t : ChatTransport) (s : ChatService)
    (topic : String) (participant_ids : List String) : Envelope :=
  match s.chat_client with
  | none => chatClientMissingEnv
  | some _ =>
    match t.create_chat_thread_call topic (buildParticipants participant_ids) with
    | Except.ok r =>
      [("success", JValue.vBool true),
       ("thread_id", JValue.vStr r.id),
       ("topic", JValue.vStr r.topic),
       ("created_on", JValue.vStr r.created_on)]
    | Except.error e =>
      [("success", JValue.vBool false),
       ("error", JValue.vStr e)]

/-- `ChatService.send_message`: guard on the handle, send through the
thread client, wrap the outcome with the send timestamp. -/
def ChatService.send_message (t : ChatTransport) (s : ChatService)
    (thread_id content sender_display_name : String) : Envelope :=
  match s.chat_client with
  | none => chatClientMissingEnv
  | some _ =>
    match t.send_message_call thread_id content sender_display_name with
    | Except.ok mid =>
      [("success", JValue.vBool true),
       ("message_id", JValue.vStr mid),
       ("sent_at", JValue.vStr t.utcnow)]
    | Except.error e =>
      [("success", JValue.vBool false),
       ("error", JValue.vStr e)]

/-- One message dict appended inside the `get_messages` loop. -/
def chatMessageToObj (m : ChatMessageModel) : JValue :=
  JValue.vObj
    [("id", JValue.vStr m.id),
     ("type", JValue.vStr m.type),
     ("content", optStrVal m.content),
     ("sender_id", optStrVal m.sender_id),
     ("created_on", optStrVal m.created_on)]

/-- The `get_messages` loop: keep consuming the iterator while
`len(messages) >= max_messages` is false, appending one dict per
message. -/
def collectMessages (max_messages : Int) :
    List ChatMessageModel → List JValue → List JValue
  | [], acc => acc
  | m :: rest, acc =>
    if (acc.length : Int) ≥ max_messages then acc
    else collectMessages max_messages rest (acc ++ [chatMessageToObj m])

/-- `ChatService.get_messages`: guard on the handle, consume the lazy
message sequence up to the cap, wrap the collected list and its length. -/
def ChatService.get_messages (t : ChatTransport) (s : ChatService)
    (thread_id : String) (max_messages : Int) : Envelope :=
  match s.chat_client with
  | none => chatClientMissingEnv
  | some _ =>
    match t.list_messages_call thread_id with
    | Except.error e =>
      [("success", JValue.vBool false),
       ("error", JValue.vStr e)]
    | Except.ok ms =>
      let messages := collectMessages max_messages ms []
      [("success", JValue.vBool true),
       ("messages", JValue.vList messages),
       ("count", JValue.vNat messages.length)]

/-! ## Chat session traces -/

/-- The chat-session operations a caller can perform after construction. -/
inductive ChatOp where
  | createUserAndToken : ChatOp
  | initializeChatClient (access_token : String) : ChatOp
  | createChatThread (topic : String) (participant_ids : List String) : ChatOp
  | sendMessage (thread_id content sender_display_name : String) : ChatOp
  | getMessages (thread_id : String) (max_messages : Int) : ChatOp

/-- State effect of one operation.  Only `initialize_chat_client` assigns
to a field of `self`; every other method of `ChatService` reads the state
and returns an envelope without assigning to `self`. -/
def applyChatOp (_t : ChatTransport) (s : ChatService) : ChatOp → ChatService
  | ChatOp.createUserAndToken => s
  | ChatOp.initializeChatClient tok => s.initialize_chat_client tok
  | ChatOp.createChatThread _ _ => s
  | ChatOp.sendMessage _ _ _ => s
  | ChatOp.getMessages _ _ => s

/-- Run a sequence of chat-session operations from a starting state. -/
def runChatOps (t : ChatTransport) (s : ChatService)
    (ops : List ChatOp) : ChatService :=
  ops.foldl (applyChatOp t) s

/-! ## Standalone test-email script (`test_email.py` `__main__`) -/

/-- Outcome of the script's entry block: either the usage message and a
process exit with the given code before any send is attempted, or entry
into `send_test_email(recipient)`. -/
inductive ScriptOutcome where
  | usageExit (printed : List String) (code : Nat) : ScriptOutcome
  | sendPath (recipient : String) : ScriptOutcome
deriving DecidableEq

/-- `test_email.py` `__main__`: with fewer than two `argv` entries print
the usage lines and exit with status 1; otherwise call
`send_test_email(sys.argv[1])`. -/
def testEmailMain (argv : List String) : ScriptOutcome :=
  if argv.length < 2 then
    ScriptOutcome.usageExit
      ["Usage: python test_email.py <recipient_email>",
       "Example: python test_email.py your.email@example.com"] 1
  else
    ScriptOutcome.sendPath (argv.getD 1 "")

/-! ## The uniform result envelope -/

/-- Envelope well-formedness: a boolean `success` key is present, and an
`error` key is present exactly when `success` is false. -/
def envelopeOk (e : Envelope) : Prop :=
  ∃ b : Bool, lookupKey e "success" = some (JValue.vBool b) ∧
    ((lookupKey e "error").isSome ↔ b = false)

/-- A trivial collaborator whose every call fails; used to instantiate
universally quantified transports at concrete inputs. -/
def offlineChatTransport : ChatTransport :=
  { create_user_and_token_call := Except.error "offline"
    create_chat_thread_call := fun _ _ => Except.error "offline"
    send_message_call := fun _ _ _ => Except.error "offline"
    list_messages_call := fun _ => Except.error "offline"
    utcnow := "1970-01-01T00:00:00" }

/-- C1: for every externally-facing operation (send_sms, send_email,
create_user_and_token, create_chat_thread, send_message, get_messages)
and every input and collaborator behaviour, the returned envelope has a
boolean `success` key and contains an `error` key if and only if
`success` is false. -/
theorem C1_uniform_result_envelope :
    (∀ t f n m edr tag, envelopeOk (SMSService.send_sms t f n m edr tag)) ∧
    (∀ t sa ra su bo ih cc bcc rt,
      envelopeOk (EmailService.send_email t sa ra su bo ih cc bcc rt)) ∧
    (∀ t s, envelopeOk (ChatService.create_user_and_token t s)) ∧
    (∀ t s topic pids,
      envelopeOk (ChatService.create_chat_thread t s topic pids)) ∧
    (∀ t s tid c dn, envelopeOk (ChatService.send_message t s tid c dn)) ∧
    (∀ t s tid k, envelopeOk (ChatService.get_messages t s tid k)) := by
  refine ⟨?_, ?_, ?_, ?_, ?_, ?_⟩
  · intro t f n m edr tag
    cases h : t f n m edr tag with
    | ok r =>
      exact ⟨true, by simp [SMSService.send_sms, h, lookupKey, List.lookup],
        by simp [SMSService.send_sms, h, lookupKey, List.lookup]⟩
    | error e =>
      exact ⟨false, by simp [SMSService.send_sms, h, lookupKey, List.lookup],
        by simp [SMSService.send_sms, h, lookupKey, List.lookup]⟩
  · intro t sa ra su bo ih cc bcc rt
    cases h : t (buildEmailMessage sa ra su bo ih cc bcc rt) with
    | ok r =>
      exact ⟨true, by simp [EmailService.send_email, h, lookupKey, List.lookup],
        by simp [EmailService.send_email, h, lookupKey, List.lookup]⟩
    | error e =>
      exact ⟨false, by simp [EmailService.send_email, h, lookupKey, List.lookup],
        by simp [EmailService.send_email, h, lookupKey, List.lookup]⟩
  · intro t s
    cases h : t.create_user_and_token_call with
    | ok r =>
      exact ⟨true,
        by simp [ChatService.create_user_and_token, h, lookupKey, List.lookup],
        by simp [ChatService.create_user_and_token, h, lookupKey, List.lookup]⟩
    | error e =>
      exact ⟨false,
        by simp [ChatService.create_user_and_token, h, lookupKey, List.lookup],
        by simp [ChatService.create_user_and_token, h, lookupKey, List.lookup]⟩
  · intro t s topic pids
    obtain ⟨ep, cc⟩ := s
    cases cc with
    | none =>
      exact ⟨false, rfl,
        by simp [ChatService.create_chat_thread, chatClientMissingEnv,
          lookupKey, List.lookup]⟩
    | some c =>
      cases h : t.create_chat_thread_call topic (buildParticipants pids) with
      | ok r =>
        exact ⟨true,
          by simp [ChatService.create_chat_thread, h, lookupKey, List.lookup],
          by simp [ChatService.create_chat_thread, h, lookupKey, List.lookup]⟩
      | error e =>
        exact ⟨false,
          by simp [ChatService.create_chat_thread, h, lookupKey, List.lookup],
          by simp [ChatService.create_chat_thread, h, lookupKey, List.lookup]⟩
  · intro t s tid c dn
    obtain ⟨ep, cc⟩ := s
    cases cc with
    | none =>
      exact ⟨false, rfl,
        by simp [ChatService.send_message, chatClientMissingEnv,
          lookupKey, List.lookup]⟩
    | some cl =>
      cases h : t.send_message_call tid c dn with
      | ok mid =>
        exact ⟨true,
          by simp [ChatService.send_message, h, lookupKey, List.lookup],
          by simp [ChatService.send_message, h, lookupKey, List.lookup]⟩
      | error e =>
        exact ⟨false,
          by simp [ChatService.send_message, h, lookupKey, List.lookup],
          by simp [ChatService.send_message, h, lookupKey, List.lookup]⟩
  · intro t s tid k
    obtain ⟨ep, cc⟩ := s
    cases cc with
    | none =>
      exact ⟨false, rfl,
        by simp [ChatService.get_messages, chatClientMissingEnv,
          lookupKey, List.lookup]⟩
    | some cl =>
      cases h : t.list_messages_call tid with
      | ok ms =>
        exact ⟨true,
          by simp [ChatService.get_messages, h, lookupKey, List.lookup],
          by simp [ChatService.get_messages, h, lookupKey, List.lookup]⟩
      | error e =>
        exact ⟨false,
          by simp [ChatService.get_messages, h, lookupKey, List.lookup],
          by simp [ChatService.get_messages, h, lookupKey, List.lookup]⟩

/-- C2: every chat thread/message operation on a session whose
`chat_client` is absent returns exactly
`{success: false, error: "Chat client not initialized"}`, and the result
does not depend on the chat transport collaborator at all (no call is
made to it). -/
theorem C2_chat_ops_fail_fast_uninitialized (s : ChatService)
    (h : s.chat_client = none) :
    ∀ t1 t2 : ChatTransport, ∀ topic pids tid content dn tid2 k,
      ChatService.create_chat_thread t1 s topic pids =
        [("success", JValue.vBool false),
         ("error", JValue.vStr "Chat client not initialized")] ∧
      ChatService.send_message t1 s tid content dn =
        [("success", JValue.vBool false),
         ("error", JValue.vStr "Chat client not initialized")] ∧
      ChatService.get_messages t1 s tid2 k =
        [("success", JValue.vBool false),
         ("error", JValue.vStr "Chat client not initialized")] ∧
      ChatService.create_chat_thread t1 s topic pids =
        ChatService.create_chat_thread t2 s topic pids ∧
      ChatService.send_message t1 s tid content dn =
        ChatService.send_message t2 s tid content dn ∧
      ChatService.get_messages t1 s tid2 k =
        ChatService.get_messages t2 s tid2 k := by
  obtain ⟨ep, cc⟩ := s
  simp only at h
  subst h
  exact fun t1 t2 topic pids tid content dn tid2 k =>
    ⟨rfl, rfl, rfl, rfl, rfl, rfl⟩

/-- C2 witness: the fail-fast behaviour at a concrete uninitialized
session and concrete arguments. -/
theorem C2_chat_ops_fail_fast_uninitialized_witness :
    ChatService.create_chat_thread offlineChatTransport
        (ChatService.init "https://ep") "general" ["u1"] =
      [("success", JValue.vBool false),
       ("error", JValue.vStr "Chat client not initialized")] ∧
    ChatService.get_messages offlineChatTransport
        (ChatService.init "https://ep") "thread-1" 20 =
      [("success", JValue.vBool false),
       ("error", JValue.vStr "Chat client not initialized")] :=
  have h := C2_chat_ops_fail_fast_uninitialized (ChatService.init "https://ep")
    rfl offlineChatTransport offlineChatTransport "general" ["u1"]
    "thread-1" "hello" "User" "thread-1" 20
  ⟨h.1, h.2.2.1⟩

/-- C3: `send_bulk_sms` returns one envelope per recipient, in order, the
i-th being exactly what `send_sms` would produce for that recipient in
isolation (with the default `tag=None`); a failing recipient never stops
the rest, as the i-th envelope depends only on the i-th recipient. -/
theorem C3_bulk_sms_pointwise (t : SmsTransport)
    (from_number message : String) (edr : Bool) (to_numbers : List String) :
    (SMSService.send_bulk_sms t from_number to_numbers message edr).length =
      to_numbers.length ∧
    ∀ i : Nat,
      (SMSService.send_bulk_sms t from_number to_numbers message edr)[i]? =
      (to_numbers[i]?).map fun n =>
        SMSService.send_sms t from_number n message edr none := by
  constructor
  · simp [SMSService.send_bulk_sms]
  · intro i
    simp [SMSService.send_bulk_sms]

/-! ## Configuration resolution claims -/

/-- A secret store whose every access fails. -/
def storeUnavailable : String → Except String String :=
  fun _ => Except.error "vault unreachable"

/-- An environment holding only the primary connection-string variable. -/
def envOnlyConn : String → Option String := fun k =>
  if k = "ACS_CONNECTION_STRING" then some "endpoint=https://x;accesskey=y"
  else none

/-- An environment holding only the endpoint variable. -/
def envEndpointOnly : String → Option String := fun k =>
  if k = "ACS_ENDPOINT" then some "https://x" else none

/-- An empty environment. -/
def envEmpty : String → Option String := fun _ => none

/-- An environment with the endpoint and Key Vault URL set but no
connection string. -/
def envEndpointAndVault : String → Option String := fun k =>
  if k = "ACS_ENDPOINT" then some "https://e"
  else if k = "KEY_VAULT_URL" then some "https://v" else none

/-- C4: whenever the environment holds a non-empty connection string,
resolution returns it unchanged, the secret store is never consulted
(the result is identical for any two stores), and with no endpoint
variable the endpoint field is absent. -/
theorem C4_env_connection_string_wins (env : String → Option String)
    (v : String) (hv : v ≠ "")
    (h : env "ACS_CONNECTION_STRING" = some v) :
    ∀ store store2 : String → Except String String,
      ACSConfiguration.load_configuration env store =
        { connection_string := some v, endpoint := env "ACS_ENDPOINT" } ∧
      ACSConfiguration.load_configuration env store =
        ACSConfiguration.load_configuration env store2 ∧
      (env "ACS_ENDPOINT" = none →
        (ACSConfiguration.load_configuration env store).endpoint = none) := by
  intro store store2
  have ht : strTruthy (some v) = true := by simp [strTruthy]; exact hv
  refine ⟨?_, ?_, ?_⟩
  · simp [ACSConfiguration.load_configuration, h, ht]
  · simp [ACSConfiguration.load_configuration, h, ht]
  · intro h3
    simp [ACSConfiguration.load_configuration, h, ht, h3]

/-- C4 witness: the documented scenario, with only
`ACS_CONNECTION_STRING="endpoint=https://x;accesskey=y"` set. -/
theorem C4_env_connection_string_wins_witness :
    ACSConfiguration.load_configuration envOnlyConn storeUnavailable =
      { connection_string := some "endpoint=https://x;accesskey=y",
        endpoint := none } ∧
    (ACSConfiguration.load_configuration envOnlyConn storeUnavailable).endpoint
      = none :=
  have h := C4_env_connection_string_wins envOnlyConn
    "endpoint=https://x;accesskey=y" (by decide) rfl
    storeUnavailable storeUnavailable
  ⟨h.1, h.2.2 rfl⟩

/-- C5 counterexample: with the primary secret and the secret-store
location both absent but the endpoint variable set, resolution leaves the
endpoint present (the environment value), contradicting "both the
connection secret and the endpoint are absent". -/
theorem C5_counterexample_endpoint_survives :
    envEndpointOnly "ACS_CONNECTION_STRING" = none ∧
    envEndpointOnly "KEY_VAULT_URL" = none ∧
    (ACSConfiguration.load_configuration envEndpointOnly
      storeUnavailable).endpoint = some "https://x" :=
  ⟨rfl, rfl, rfl⟩

/-- C5 (amended): with the primary secret and the secret-store location
both absent, resolution returns the connection secret absent and the
endpoint exactly as the environment supplies it, never consulting the
store; when the endpoint variable is also absent, both fields are
absent. -/
theorem C5_no_fallback_keeps_env (env : String → Option String)
    (h1 : env "ACS_CONNECTION_STRING" = none)
    (h2 : env "KEY_VAULT_URL" = none) :
    ∀ store, ACSConfiguration.load_configuration env store =
      { connection_string := none, endpoint := env "ACS_ENDPOINT" } ∧
      (env "ACS_ENDPOINT" = none →
        ACSConfiguration.load_configuration env store =
          { connection_string := none, endpoint := none }) := by
  intro store
  constructor
  · simp [ACSConfiguration.load_configuration, h1, h2, strTruthy]
  · intro h3
    simp [ACSConfiguration.load_configuration, h1, h2, h3, strTruthy]

/-- C5 witness: the fully empty environment resolves to both fields
absent. -/
theorem C5_no_fallback_keeps_env_witness :
    ACSConfiguration.load_configuration envEmpty storeUnavailable =
      { connection_string := none, endpoint := none } :=
  (C5_no_fallback_keeps_env envEmpty rfl rfl storeUnavailable).2 rfl

/-- C6 counterexample: the fallback is entered (no connection string, a
Key Vault URL present), every store access fails, and yet the endpoint
field — whose fetch never succeeded — ends up present with the
environment value rather than absent. -/
theorem C6_counterexample_affected_field_not_absent :
    storeUnavailable "acs-connection-string" =
      Except.error "vault unreachable" ∧
    (ACSConfiguration.load_configuration envEndpointAndVault
      storeUnavailable).endpoint = some "https://e" :=
  ⟨rfl, rfl⟩

/-- C6 (amended): any secret-store access failure during the fallback is
caught and resolution completes rather than aborting: if the first fetch
fails, both fields keep their environment-derived values; if the first
succeeds and the second fails, the connection secret keeps the fetched
value and the endpoint keeps its environment-derived value.  Fields the
environment did not supply therefore remain absent. -/
theorem C6_store_failure_recovered (env : String → Option String)
    (store : String → Except String String)
    (hcs : strTruthy (env "ACS_CONNECTION_STRING") = false)
    (hkv : strTruthy (env "KEY_VAULT_URL") = true) :
    (∀ e, store "acs-connection-string" = Except.error e →
      ACSConfiguration.load_configuration env store =
        { connection_string := env "ACS_CONNECTION_STRING",
          endpoint := env "ACS_ENDPOINT" }) ∧
    (∀ cs e, store "acs-connection-string" = Except.ok cs →
      store "acs-endpoint" = Except.error e →
      ACSConfiguration.load_configuration env store =
        { connection_string := some cs,
          endpoint := env "ACS_ENDPOINT" }) := by
  constructor
  · intro e he
    simp [ACSConfiguration.load_configuration,
      ACSConfiguration.load_from_key_vault, hcs, hkv, he]
  · intro cs e hok he
    simp [ACSConfiguration.load_configuration,
      ACSConfiguration.load_from_key_vault, hcs, hkv, hok, he]

/-- C6 witness: a fully failing store against an environment with only
the endpoint and vault URL set; resolution completes with the
environment-derived values. -/
theorem C6_store_failure_recovered_witness :
    ACSConfiguration.load_configuration envEndpointAndVault storeUnavailable =
      { connection_string := none, endpoint := some "https://e" } :=
  (C6_store_failure_recovered envEndpointAndVault storeUnavailable rfl rfl).1
    "vault unreachable" rfl

/-! ## Chat message listing claims -/

/-- Unrolling the `get_messages` loop: from accumulator `acc` the loop
appends the next `max_messages.toNat - acc.length` messages, in iterator
order. -/
theorem collectMessages_eq_take (k : Int) (msgs : List ChatMessageModel) :
    ∀ acc : List JValue,
      collectMessages k msgs acc =
        acc ++ (msgs.take (k.toNat - acc.length)).map chatMessageToObj := by
  induction msgs with
  | nil => intro acc; simp [collectMessages]
  | cons m rest ih =>
    intro acc
    by_cases hge : (acc.length : Int) ≥ k
    · have h0 : k.toNat - acc.length = 0 := by omega
      simp [collectMessages, hge, h0]
    · have h1 : k.toNat - acc.length = (k.toNat - (acc.length + 1)) + 1 := by
        omega
      simp only [collectMessages, if_neg hge, ih, h1]
      simp [List.take_succ_cons]

/-- The loop from an empty accumulator takes the first
`max_messages.toNat` messages. -/
theorem collectMessages_nil_acc (k : Int) (msgs : List ChatMessageModel) :
    collectMessages k msgs [] = (msgs.take k.toNat).map chatMessageToObj := by
  simpa using collectMessages_eq_take k msgs []

/-- A fixed sample chat message used for concrete instantiations. -/
def sampleMessage (n : Nat) : ChatMessageModel :=
  { id := "m" ++ toString n
    type := "text"
    content := some ("hello " ++ toString n)
    sender_id := some "u1"
    created_on := some "2024-01-01T00:00:00" }

/-- Five sample messages in iterator order. -/
def fiveMessages : List ChatMessageModel :=
  [sampleMessage 1, sampleMessage 2, sampleMessage 3,
   sampleMessage 4, sampleMessage 5]

/-- A collaborator whose message iterator yields the five sample
messages. -/
def fiveMessageTransport : ChatTransport :=
  { create_user_and_token_call :=
      Except.ok ("u1", "tok", "2024-01-02T00:00:00")
    create_chat_thread_call := fun _ _ =>
      Except.ok { id := "th1", topic := "general",
                  created_on := "2024-01-01T00:00:00" }
    send_message_call := fun _ _ _ => Except.ok "m1"
    list_messages_call := fun _ => Except.ok fiveMessages
    utcnow := "2024-01-01T00:00:00" }

/-- A session that has gone through `initialize_chat_client`. -/
def readyChatService : ChatService :=
  (ChatService.init "https://ep").initialize_chat_client "tok"

/-- C7: on an initialized session, when the iterator yields `msgs` and the
cap `k` is non-negative, `get_messages` returns a success envelope whose
`messages` are exactly the first `min (length msgs) k` messages in
iterator order, with matching `count`. -/
theorem C7_get_messages_cap (t : ChatTransport) (s : ChatService)
    (tid : String) (cc : ChatClientModel) (msgs : List ChatMessageModel)
    (k : Int) (hs : s.chat_client = some cc)
    (hm : t.list_messages_call tid = Except.ok msgs) (_hk : 0 ≤ k) :
    ChatService.get_messages t s tid k =
      [("success", JValue.vBool true),
       ("messages",
         JValue.vList ((msgs.take k.toNat).map chatMessageToObj)),
       ("count",
         JValue.vNat ((msgs.take k.toNat).map chatMessageToObj).length)] ∧
    ((msgs.take k.toNat).map chatMessageToObj).length =
      min msgs.length k.toNat := by
  obtain ⟨ep, occ⟩ := s
  simp only at hs
  subst hs
  constructor
  · simp [ChatService.get_messages, hm, collectMessages_nil_acc]
  · simp [List.length_take, Nat.min_comm]

/-- C7 witness: the documented scenario, `max_messages=2` against five
available messages yields exactly the first two. -/
theorem C7_get_messages_cap_witness :
    ChatService.get_messages fiveMessageTransport readyChatService
        "th1" 2 =
      [("success", JValue.vBool true),
       ("messages",
         JValue.vList ((fiveMessages.take (Int.toNat 2)).map
           chatMessageToObj)),
       ("count",
         JValue.vNat ((fiveMessages.take (Int.toNat 2)).map
           chatMessageToObj).length)] ∧
    ((fiveMessages.take (Int.toNat 2)).map chatMessageToObj).length =
      min fiveMessages.length (Int.toNat 2) :=
  C7_get_messages_cap fiveMessageTransport readyChatService "th1"
    { endpoint := "https://ep", token := "tok" } fiveMessages 2
    rfl rfl (by decide)

/-- C8: along every sequence of chat-session operations, once the chat
client handle is present it stays present (no transition back to
uninitialized); the handle is assigned only by `initialize_chat_client`,
every other operation leaving it untouched. -/
theorem C8_chat_client_monotone (t : ChatTransport) :
    (∀ ops : List ChatOp, ∀ s : ChatService,
      s.chat_client.isSome = true →
      (runChatOps t s ops).chat_client.isSome = true) ∧
    (∀ op : ChatOp, ∀ s : ChatService,
      (∀ tok, op ≠ ChatOp.initializeChatClient tok) →
      (applyChatOp t s op).chat_client = s.chat_client) ∧
    (∀ tok : String, ∀ s : ChatService,
      (applyChatOp t s (ChatOp.initializeChatClient tok)).chat_client =
        some { endpoint := s.endpoint, token := tok }) := by
  refine ⟨?_, ?_, ?_⟩
  · intro ops
    induction ops with
    | nil => intro s h; exact h
    | cons op rest ih =>
      intro s h
      have hstep : (applyChatOp t s op).chat_client.isSome = true := by
        cases op <;>
          simp_all [applyChatOp, ChatService.initialize_chat_client]
      exact ih _ hstep
  · intro op s hop
    cases op with
    | createUserAndToken => rfl
    | initializeChatClient tok => exact absurd rfl (hop tok)
    | createChatThread topic pids => rfl
    | sendMessage a b c => rfl
    | getMessages a b => rfl
  · intro tok s
    rfl

/-- C8 witness: a concrete trace after initialization keeps the handle,
and a concrete non-initializing operation leaves it untouched. -/
theorem C8_chat_client_monotone_witness :
    (runChatOps offlineChatTransport readyChatService
      [ChatOp.createUserAndToken,
       ChatOp.sendMessage "th1" "hi" "User",
       ChatOp.getMessages "th1" 20]).chat_client.isSome = true ∧
    (applyChatOp offlineChatTransport readyChatService
      (ChatOp.getMessages "th1" 20)).chat_client =
      readyChatService.chat_client :=
  ⟨(C8_chat_client_monotone offlineChatTransport).1
      [ChatOp.createUserAndToken,
       ChatOp.sendMessage "th1" "hi" "User",
       ChatOp.getMessages "th1" 20] readyChatService rfl,
   (C8_chat_client_monotone offlineChatTransport).2.1
      (ChatOp.getMessages "th1" 20) readyChatService
      (fun _ h => ChatOp.noConfusion h)⟩

/-- C9: the test-email script with fewer than two argv entries prints the
usage lines and exits with status 1 (non-zero) without entering the send
path; with a recipient argument it enters the send path with exactly that
recipient. -/
theorem C9_cli_usage (argv : List String) :
    (argv.length < 2 →
      testEmailMain argv =
        ScriptOutcome.usageExit
          ["Usage: python test_email.py <recipient_email>",
           "Example: python test_email.py your.email@example.com"] 1 ∧
      (∀ ms c, testEmailMain argv = ScriptOutcome.usageExit ms c →
        c ≠ 0) ∧
      (∀ r, testEmailMain argv ≠ ScriptOutcome.sendPath r)) ∧
    (∀ prog r rest, argv = prog :: r :: rest →
      testEmailMain argv = ScriptOutcome.sendPath r) := by
  constructor
  · intro h
    refine ⟨by simp [testEmailMain, h], ?_, ?_⟩
    · intro ms c hc
      simp only [testEmailMain, if_pos h] at hc
      injection hc with h1 h2
      omega
    · intro r hr
      simp only [testEmailMain, if_pos h] at hr
      exact ScriptOutcome.noConfusion hr
  · rintro prog r rest rfl
    have hlen : ¬ (prog :: r :: rest).length < 2 := by
      simp [List.length_cons]
    simp [testEmailMain, hlen]

/-- C9 witness: no argument gives the usage exit; one argument enters the
send path with that recipient. -/
theorem C9_cli_usage_witness :
    testEmailMain ["test_email.py"] =
      ScriptOutcome.usageExit
        ["Usage: python test_email.py <recipient_email>",
         "Example: python test_email.py your.email@example.com"] 1 ∧
    testEmailMain ["test_email.py", "user@example.com"] =
      ScriptOutcome.sendPath "user@example.com" :=
  ⟨((C9_cli_usage ["test_email.py"]).1 (by decide)).1,
   (C9_cli_usage ["test_email.py", "user@example.com"]).2
     "test_email.py" "user@example.com" [] rfl⟩

/-- C10: every success envelope of `get_messages` carries a `count` equal
to the length of its `messages` list; and with a non-positive cap the
loop collects nothing, so a non-raising iteration yields a success
envelope with an empty list and count 0. -/
theorem C10_count_matches_messages (t : ChatTransport) (s : ChatService)
    (tid : String) (k : Int) :
    (∀ L c, lookupKey (ChatService.get_messages t s tid k) "messages" =
        some (JValue.vList L) →
      lookupKey (ChatService.get_messages t s tid k) "count" = some c →
      c = JValue.vNat L.length) ∧
    (∀ cc msgs, s.chat_client = some cc →
      t.list_messages_call tid = Except.ok msgs → k ≤ 0 →
      ChatService.get_messages t s tid k =
        [("success", JValue.vBool true),
         ("messages", JValue.vList []),
         ("count", JValue.vNat 0)]) := by
  obtain ⟨ep, occ⟩ := s
  constructor
  · intro L c hL hc
    cases occ with
    | none =>
      simp [ChatService.get_messages, chatClientMissingEnv, lookupKey,
        List.lookup] at hL
    | some cl =>
      cases hm : t.list_messages_call tid with
      | error e =>
        simp [ChatService.get_messages, hm, lookupKey, List.lookup] at hL
      | ok ms =>
        simp only [ChatService.get_messages, hm, lookupKey,
          List.lookup] at hL hc
        simp_all
  · intro cc msgs hcc hms hk
    simp only at hcc
    subst hcc
    have h0 : collectMessages k msgs [] = [] := by
      rw [collectMessages_nil_acc]
      have hz : k.toNat = 0 := by omega
      simp [hz]
    simp [ChatService.get_messages, hms, h0]

/-- C10 witness: with the five-message collaborator, the count matches
the collected list, and a zero cap returns the empty success envelope. -/
theorem C10_count_matches_messages_witness :
    JValue.vNat 5 =
      JValue.vNat (fiveMessages.map chatMessageToObj).length ∧
    ChatService.get_messages fiveMessageTransport readyChatService
        "th1" 0 =
      [("success", JValue.vBool true),
       ("messages", JValue.vList []),
       ("count", JValue.vNat 0)] :=
  ⟨(C10_count_matches_messages fiveMessageTransport readyChatService
      "th1" 20).1 (fiveMessages.map chatMessageToObj) (JValue.vNat 5)
      rfl rfl,
   (C10_count_matches_messages fiveMessageTransport readyChatService
      "th1" 0).2 { endpoint := "https://ep", token := "tok" }
      fiveMessages rfl rfl (by decide)⟩
